import Mathlib

/-!
Shallow embedding of Citra's cemuhookudp client
(`src/input_common/udp/client.cpp`).

Pure data transformations of the client are modelled as Lean functions and
the asynchronous socket handlers as explicit state-transition functions.
`f32` values are modelled as rationals (the transformations at issue —
negation, clamping, and a single linear rescale — are exact); `u16`/`u32`
fields are modelled as naturals, with the C integral promotion to `int`
made explicit as casts into `ℤ` where subtraction occurs.  The fallible
synchronous `send_to` returns `Except`.  Structures declared in
`protocol.h` / `client.h` (outside the provided sources) are modelled from
the spec where noted; the fields are exactly the ones `client.cpp` reads
or writes.
-/

namespace CemuhookUDP

/-- Triple of float components, standing for `Math::Vec3f` as used by
`Client::OnPadData` (floats modelled as rationals). -/
structure Vec3f where
  x : ℚ
  y : ℚ
  z : ℚ
deriving DecidableEq

/-- Modelled from the spec: the accelerometer sample of a `Response::PadData`
payload (`protocol.h` is outside the provided sources); fields as read by
`Client::OnPadData`. -/
structure Accelerometer where
  x : ℚ
  y : ℚ
  z : ℚ
deriving DecidableEq

/-- Modelled from the spec: the gyroscope sample of a `Response::PadData`
payload; fields as read by `Client::OnPadData`. -/
structure Gyroscope where
  pitch : ℚ
  yaw : ℚ
  roll : ℚ
deriving DecidableEq

/-- Modelled from the spec: touch point 1 of a `Response::PadData` payload:
raw `u16` coordinates and a byte that is nonzero when the touch is active. -/
structure TouchPad where
  x : ℕ
  y : ℕ
  is_active : ℕ
deriving DecidableEq

/-- Modelled from the spec: the `Response::PadData` payload fields read by
`Client::OnPadData`: `packet_counter : u32`, accelerometer, gyroscope and
touch point 1. -/
structure PadData where
  packet_counter : ℕ
  accel : Accelerometer
  gyro : Gyroscope
  touch_1 : TouchPad
deriving DecidableEq

/-- Modelled from the spec: the `Response::Version` payload — the protocol
version (`u16`), only logged by `Client::OnVersion`. -/
structure VersionData where
  version : ℕ
deriving DecidableEq

/-- Modelled from the spec: the `Response::PortInfo` payload — model and
connection/battery state; only `model` is read (logged) by
`Client::OnPortInfo`. -/
structure PortInfoData where
  model : ℕ
deriving DecidableEq

/-- Modelled from the spec: the optional `TouchCalibration` bounds stored in
the shared `DeviceStatus` (`client.h` is outside the provided sources):
four `u16` values. -/
structure TouchCalibration where
  min_x : ℕ
  max_x : ℕ
  min_y : ℕ
  max_y : ℕ
deriving DecidableEq

/-- Modelled from the spec: the shared `DeviceStatus` object as written by
`Client::OnPadData`: motion status (remapped accel and gyro vectors), touch
status `(x, y, is_active)`, and the externally supplied optional touch
calibration (read-only to the client). -/
structure DeviceStatus where
  motion_status : Vec3f × Vec3f
  touch_status : ℚ × ℚ × Bool
  touch_calibration : Option TouchCalibration
deriving DecidableEq

/-- The client-facade state a callback can read or write: the shared status
object and the private `packet_sequence` staleness counter. -/
structure ClientState where
  status : DeviceStatus
  packet_sequence : ℕ
deriving DecidableEq

/-- Diagnostic log events emitted by the client callbacks (`LOG_TRACE` /
`LOG_WARNING` calls in `client.cpp`), carrying the interpolated values. -/
inductive LogEvent where
  | versionTrace (version : ℕ)
  | portInfoTrace (model : ℕ)
  | padDataTrace
  | staleDropped (current packet : ℕ)
deriving DecidableEq

/-- The fixed axis remap of `Client::OnPadData`: the first component is the
accelerometer vector `(x, y, z)`, the second the gyroscope vector
`(pitch, yaw, roll)`; the code builds
`MakeVec(-accel.x, accel.y, -accel.z)` and
`MakeVec(-gyro.pitch, -gyro.yaw, gyro.roll)`. -/
def motionRemap (m : Vec3f × Vec3f) : Vec3f × Vec3f :=
  (⟨-m.1.x, m.1.y, -m.1.z⟩, ⟨-m.2.x, -m.2.y, m.2.z⟩)

/-- The `std::clamp(v, lo, hi)` call on `u16` values:
`v < lo ? lo : (hi < v ? hi : v)` (well defined for `lo ≤ hi`). -/
def clampU16 (v lo hi : ℕ) : ℕ :=
  if v < lo then lo else if hi < v then hi else v

/-- The normalization divisor `max - min` computed in `Client::OnPadData`
(after integral promotion of the `u16` operands this is `int` arithmetic,
hence `ℤ`). -/
def spanOf (lo hi : ℕ) : ℤ := (hi : ℤ) - (lo : ℤ)

/-- One normalized touch coordinate of `Client::OnPadData`:
`(std::clamp(v, lo, hi) - lo) / float(hi - lo)`. -/
def normCoord (v lo hi : ℕ) : ℚ :=
  (((clampU16 v lo hi : ℤ) - (lo : ℤ) : ℤ) : ℚ) / ((spanOf lo hi : ℤ) : ℚ)

/-- The condition under which `Client::OnPadData` performs the touch
division: the guard of `if (is_active && status->touch_calibration)`. -/
def touchDivisionPerformed (cal : Option TouchCalibration) (t : TouchPad) : Prop :=
  t.is_active ≠ 0 ∧ cal.isSome = true

instance (cal : Option TouchCalibration) (t : TouchPad) :
    Decidable (touchDivisionPerformed cal t) := by
  unfold touchDivisionPerformed
  infer_instance

/-- The touch branch of `Client::OnPadData`: `is_active = touch_1.is_active
!= 0`; `x` and `y` start at `0` and are overwritten by the clamped,
normalized coordinates only when the touch is active and a calibration is
present. -/
def touchTransform (cal : Option TouchCalibration) (t : TouchPad) : ℚ × ℚ × Bool :=
  let a : Bool := t.is_active != 0
  match cal with
  | some c =>
      if a then (normCoord t.x c.min_x c.max_x, normCoord t.y c.min_y c.max_y, a)
      else (0, 0, a)
  | none => (0, 0, a)

/-- `Client::OnVersion`: logs the version, mutates nothing. -/
def OnVersion (data : VersionData) (st : ClientState) : ClientState × List LogEvent :=
  (st, [LogEvent.versionTrace data.version])

/-- `Client::OnPortInfo`: logs the model, mutates nothing. -/
def OnPortInfo (data : PortInfoData) (st : ClientState) : ClientState × List LogEvent :=
  (st, [LogEvent.portInfoTrace data.model])

/-- `Client::OnPadData`: drop the packet if `packet_counter <=
packet_sequence` (warning log, state untouched); otherwise record the
counter, remap the motion axes, transform the touch point, and write both
into the shared status under the mutex (one atomic state update here). -/
def OnPadData (data : PadData) (st : ClientState) : ClientState × List LogEvent :=
  if data.packet_counter ≤ st.packet_sequence then
    (st, [LogEvent.padDataTrace, LogEvent.staleDropped st.packet_sequence data.packet_counter])
  else
    let m := motionRemap (⟨data.accel.x, data.accel.y, data.accel.z⟩,
                          ⟨data.gyro.pitch, data.gyro.yaw, data.gyro.roll⟩)
    let ts := touchTransform st.status.touch_calibration data.touch_1
    (⟨⟨m, ts, st.status.touch_calibration⟩, data.packet_counter⟩, [LogEvent.padDataTrace])

/-- A decoded response, tagged by the validated type: the three cases of the
switch in `Socket::HandleReceive`. -/
inductive DecodedResponse where
  | version (v : VersionData)
  | portInfo (p : PortInfoData)
  | padData (d : PadData)
deriving DecidableEq

/-- Which registered callback fired during one receive completion. -/
inductive CallbackKind where
  | version
  | portInfo
  | padData
deriving DecidableEq

/-- `Socket::HandleReceive` composed with the client callbacks: the external
black-box validator (`Response::Validate`, spec §4.1) is an arbitrary
function from the received bytes to an optional decoded response; on
`none` (failed header validation or unrecognized type tag) no callback
runs, otherwise the matching callback runs; in every case `StartReceive()`
is called again afterwards — the returned `Bool` records that re-arm. -/
def clientReceiveStep (validate : List ℕ → Option DecodedResponse)
    (buf : List ℕ) (st : ClientState) : ClientState × List CallbackKind × Bool :=
  match validate buf with
  | none => (st, [], true)
  | some (DecodedResponse.version v) => ((OnVersion v st).1, [CallbackKind.version], true)
  | some (DecodedResponse.portInfo p) => ((OnPortInfo p st).1, [CallbackKind.portInfo], true)
  | some (DecodedResponse.padData d) => ((OnPadData d st).1, [CallbackKind.padData], true)

/-- Modelled from the spec: the pad registration flags of `Request::PadData`
(all pads / by id / by MAC); `Socket::HandleSend` uses the by-id flag. -/
inductive RegisterFlags where
  | allPads
  | id
  | mac
deriving DecidableEq

/-- Modelled from the spec: the `Request::PortInfo` payload as initialized in
`Socket::HandleSend`: a pad count and an array of four port numbers. -/
structure PortInfoRequest where
  pad_count : ℕ
  port : List ℕ
deriving DecidableEq

/-- Modelled from the spec: the `Request::PadData` payload as initialized in
`Socket::HandleSend`: registration flags, a pad index, and a MAC address. -/
structure PadDataRequest where
  flags : RegisterFlags
  index : ℕ
  mac : List ℕ
deriving DecidableEq

/-- Modelled from the spec: the all-zero MAC placeholder `EMPTY_MAC_ADDRESS`
from `protocol.h`. -/
def EMPTY_MAC_ADDRESS : List ℕ := [0, 0, 0, 0, 0, 0]

/-- Modelled from the spec: a framed outgoing message — `Request::Create` is
the black-box encoder that wraps a payload in a header carrying the
construction-time client id. -/
structure Message (α : Type) where
  payload : α
  client_id : ℕ
deriving DecidableEq

/-- Modelled from the spec: `Request::Create(data, client_id)`. -/
def Create {α : Type} (data : α) (client_id : ℕ) : Message α :=
  ⟨data, client_id⟩

/-- A datagram handed to `socket.send_to` during a heartbeat tick. -/
inductive SentMessage where
  | portInfo (m : Message PortInfoRequest)
  | padData (m : Message PadDataRequest)
deriving DecidableEq

/-- A socket-level send fault (a boost system error code). -/
inductive SendError where
  | fault (code : ℕ)
deriving DecidableEq

/-- First request of a heartbeat tick: the port-info query
`Request::PortInfo{1, {0, 0, 0, 0}}` — info for one pad, the first pad
slot (wire port number 0). -/
def portInfoMessage (cid : ℕ) : SentMessage :=
  SentMessage.portInfo (Create ⟨1, [0, 0, 0, 0]⟩ cid)

/-- Second request of a heartbeat tick: the pad-data subscription
`Request::PadData{Flags::Id, 0, EMPTY_MAC_ADDRESS}` — by-id addressing of
the first pad slot (wire index 0) with the all-zero MAC placeholder. -/
def padDataMessage (cid : ℕ) : SentMessage :=
  SentMessage.padData (Create ⟨RegisterFlags.id, 0, EMPTY_MAC_ADDRESS⟩ cid)

/-- `Socket::StartSend(from)` arms the timer at `from + seconds(3)`; time
points are modelled as integer seconds. -/
def startSendExpiry (t : ℤ) : ℤ := t + 3

/-- `Socket::HandleSend`: sends the two fixed requests, each exactly once
(the `size_t` results of `send_to` are never inspected, so no retry within
the tick), then re-arms via `StartSend(timer.expiry())` — the timer's own
prior expiry, not the current time.  The synchronous `send_to` is
fallible; a failing send is an `Except.error` which the handler does not
catch, so it aborts the tick before the re-arm. -/
def HandleSend (cid : ℕ) (send : SentMessage → Except SendError ℕ)
    (priorExpiry : ℤ) : Except SendError (List SentMessage × ℤ) := do
  let _ ← send (portInfoMessage cid)
  let _ ← send (padDataMessage cid)
  pure ([portInfoMessage cid, padDataMessage cid], startSendExpiry priorExpiry)

/-- The heartbeat deadline sequence: `SocketLoop` arms the first timer from
construction time `t0` (`StartSend(clock::now())`), and each `HandleSend`
re-arms from the timer's prior expiry (`StartSend(timer.expiry())`), never
from the current time, so deadline `n + 1` is deadline `n` plus 3 s. -/
def heartbeatExpiry (t0 : ℤ) : ℕ → ℤ
  | 0 => startSendExpiry t0
  | n + 1 => startSendExpiry (heartbeatExpiry t0 n)

/-- Helper: for `lo ≤ hi`, `std::clamp` lands in `[lo, hi]`. -/
theorem clampU16_bounds (v lo hi : ℕ) (h : lo ≤ hi) :
    lo ≤ clampU16 v lo hi ∧ clampU16 v lo hi ≤ hi := by
  unfold clampU16
  rcases Nat.lt_or_ge v lo with h1 | h1
  · rw [if_pos h1]
    exact ⟨le_refl lo, h⟩
  · rw [if_neg (Nat.not_lt.mpr h1)]
    rcases Nat.lt_or_ge hi v with h2 | h2
    · rw [if_pos h2]
      exact ⟨h, le_refl hi⟩
    · rw [if_neg (Nat.not_lt.mpr h2)]
      exact ⟨h1, h2⟩

/-- Helper: a normalized coordinate over a nondegenerate calibration interval
lies in `[0, 1]`. -/
theorem normCoord_mem_unit (v lo hi : ℕ) (h : lo < hi) :
    0 ≤ normCoord v lo hi ∧ normCoord v lo hi ≤ 1 := by
  obtain ⟨hl, hu⟩ := clampU16_bounds v lo hi (Nat.le_of_lt h)
  have hnum0 : (0 : ℤ) ≤ (clampU16 v lo hi : ℤ) - (lo : ℤ) := by omega
  have hnum1 : (clampU16 v lo hi : ℤ) - (lo : ℤ) ≤ spanOf lo hi := by
    unfold spanOf
    omega
  have hden : (0 : ℤ) < spanOf lo hi := by
    unfold spanOf
    omega
  have hdenQ : (0 : ℚ) < ((spanOf lo hi : ℤ) : ℚ) := by exact_mod_cast hden
  unfold normCoord
  constructor
  · exact div_nonneg (by exact_mod_cast hnum0) (le_of_lt hdenQ)
  · rw [div_le_one hdenQ]
    exact_mod_cast hnum1

/-- Helper: an accepted packet (fresh counter) produces exactly the state
written at the end of `Client::OnPadData`. -/
theorem onPadData_accepted (d : PadData) (st : ClientState)
    (hfresh : st.packet_sequence < d.packet_counter) :
    (OnPadData d st).1 =
      ⟨⟨motionRemap (⟨d.accel.x, d.accel.y, d.accel.z⟩,
                     ⟨d.gyro.pitch, d.gyro.yaw, d.gyro.roll⟩),
        touchTransform st.status.touch_calibration d.touch_1,
        st.status.touch_calibration⟩, d.packet_counter⟩ := by
  unfold OnPadData
  rw [if_neg (Nat.not_le.mpr hfresh)]

/-- Claim C1: for every incoming PadData packet, the shared status and the
stored `packet_sequence` are updated exactly when `packet_counter` is
strictly greater than the current `packet_sequence`; a packet with
`packet_counter ≤ packet_sequence` is discarded and the whole client state
(shared status and counter) is left unchanged. -/
theorem onPadData_staleness_filter (d : PadData) (st : ClientState) :
    (d.packet_counter ≤ st.packet_sequence → (OnPadData d st).1 = st) ∧
    (st.packet_sequence < d.packet_counter →
      (OnPadData d st).1.packet_sequence = d.packet_counter ∧
      (OnPadData d st).1.status =
        ⟨motionRemap (⟨d.accel.x, d.accel.y, d.accel.z⟩,
                      ⟨d.gyro.pitch, d.gyro.yaw, d.gyro.roll⟩),
         touchTransform st.status.touch_calibration d.touch_1,
         st.status.touch_calibration⟩) := by
  constructor
  · intro h
    unfold OnPadData
    rw [if_pos h]
  · intro h
    rw [onPadData_accepted d st h]
    exact ⟨rfl, rfl⟩

/-- Witness for C1: a stale packet (counter 5 against sequence 7) leaves the
state untouched, and a fresh packet (counter 9) records its counter. -/
theorem onPadData_staleness_filter_witness :
    (OnPadData ⟨5, ⟨1, 2, 3⟩, ⟨4, 5, 6⟩, ⟨0, 0, 0⟩⟩
        ⟨⟨(⟨0, 0, 0⟩, ⟨0, 0, 0⟩), (0, 0, false), none⟩, 7⟩).1 =
      ⟨⟨(⟨0, 0, 0⟩, ⟨0, 0, 0⟩), (0, 0, false), none⟩, 7⟩ ∧
    (OnPadData ⟨9, ⟨1, 2, 3⟩, ⟨4, 5, 6⟩, ⟨0, 0, 0⟩⟩
        ⟨⟨(⟨0, 0, 0⟩, ⟨0, 0, 0⟩), (0, 0, false), none⟩, 7⟩).1.packet_sequence = 9 :=
  ⟨(onPadData_staleness_filter _ _).1 (by decide),
   ((onPadData_staleness_filter _ _).2 (by decide)).1⟩

/-- Claim C2: for every accepted PadData packet the stored motion values are
exactly the fixed axis remap: accel `(-x, y, -z)` and gyro
`(-pitch, -yaw, roll)`. -/
theorem onPadData_motion_values (d : PadData) (st : ClientState)
    (hfresh : st.packet_sequence < d.packet_counter) :
    (OnPadData d st).1.status.motion_status =
      (⟨-d.accel.x, d.accel.y, -d.accel.z⟩, ⟨-d.gyro.pitch, -d.gyro.yaw, d.gyro.roll⟩) := by
  rw [onPadData_accepted d st hfresh]
  rfl

/-- Witness for C2: input accel `(1, 2, 3)` and gyro `(4, 5, 6)` yield stored
accel `(-1, 2, -3)` and gyro `(-4, -5, 6)`. -/
theorem onPadData_motion_values_witness :
    (OnPadData ⟨1, ⟨1, 2, 3⟩, ⟨4, 5, 6⟩, ⟨0, 0, 0⟩⟩
        ⟨⟨(⟨0, 0, 0⟩, ⟨0, 0, 0⟩), (0, 0, false), none⟩, 0⟩).1.status.motion_status =
      (⟨-1, 2, -3⟩, ⟨-4, -5, 6⟩) :=
  onPadData_motion_values _ _ (by decide)

/-- Claim C9: the Version and PortInfo callbacks are diagnostic only — they
leave the whole client state (shared status and `packet_sequence`)
unchanged. -/
theorem diagnostic_callbacks_pure (v : VersionData) (p : PortInfoData) (st : ClientState) :
    (OnVersion v st).1 = st ∧ (OnVersion v st).1.packet_sequence = st.packet_sequence ∧
    (OnPortInfo p st).1 = st ∧ (OnPortInfo p st).1.packet_sequence = st.packet_sequence :=
  ⟨rfl, rfl, rfl, rfl⟩

/-- Claim C10: the fixed axis remap is an involution and leaves `accel.y` and
`gyro.roll` (the third gyro component) unchanged. -/
theorem motionRemap_involution (m : Vec3f × Vec3f) :
    motionRemap (motionRemap m) = m ∧
    (motionRemap m).1.y = m.1.y ∧ (motionRemap m).2.z = m.2.z := by
  obtain ⟨⟨ax, ay, az⟩, ⟨gp, gy, gr⟩⟩ := m
  refine ⟨?_, rfl, rfl⟩
  simp [motionRemap]

/-- Claim C3: for every accepted PadData packet, the stored `is_active` flag
is true exactly when the packet's `touch_1.is_active` is nonzero; with an
active touch and a present calibration the stored coordinates follow the
clamp-and-rescale formula; with an inactive touch (any raw coordinates) or
no calibration they are `(0, 0)`. -/
theorem onPadData_touch_semantics (d : PadData) (st : ClientState)
    (hfresh : st.packet_sequence < d.packet_counter) :
    (((OnPadData d st).1.status.touch_status).2.2 = true ↔ d.touch_1.is_active ≠ 0) ∧
    (∀ c : TouchCalibration, st.status.touch_calibration = some c →
      d.touch_1.is_active ≠ 0 →
      ((OnPadData d st).1.status.touch_status).1 = normCoord d.touch_1.x c.min_x c.max_x ∧
      ((OnPadData d st).1.status.touch_status).2.1 = normCoord d.touch_1.y c.min_y c.max_y) ∧
    ((d.touch_1.is_active = 0 ∨ st.status.touch_calibration = none) →
      ((OnPadData d st).1.status.touch_status).1 = 0 ∧
      ((OnPadData d st).1.status.touch_status).2.1 = 0) := by
  have hts : (OnPadData d st).1.status.touch_status =
      touchTransform st.status.touch_calibration d.touch_1 := by
    rw [onPadData_accepted d st hfresh]
  rw [hts]
  unfold touchTransform
  rcases hcal : st.status.touch_calibration with _ | c
  · by_cases ha : d.touch_1.is_active = 0
    · simp [ha]
    · simp [ha]
  · by_cases ha : d.touch_1.is_active = 0
    · simp [ha, hcal]
    · simp [ha, hcal]

/-- Witness for C3: the spec example — calibration
`{min_x = 100, max_x = 200, min_y = 50, max_y = 150}` with raw active touch
`(250, 0)` stores the normalized coordinates `(1, 0)` with the flag set. -/
theorem onPadData_touch_semantics_witness :
    ((OnPadData ⟨1, ⟨0, 0, 0⟩, ⟨0, 0, 0⟩, ⟨250, 0, 1⟩⟩
        ⟨⟨(⟨0, 0, 0⟩, ⟨0, 0, 0⟩), (0, 0, false), some ⟨100, 200, 50, 150⟩⟩,
         0⟩).1.status.touch_status).1 = normCoord 250 100 200 ∧
    ((OnPadData ⟨1, ⟨0, 0, 0⟩, ⟨0, 0, 0⟩, ⟨250, 0, 1⟩⟩
        ⟨⟨(⟨0, 0, 0⟩, ⟨0, 0, 0⟩), (0, 0, false), some ⟨100, 200, 50, 150⟩⟩,
         0⟩).1.status.touch_status).2.1 = normCoord 0 50 150 ∧
    normCoord 250 100 200 = 1 ∧ normCoord 0 50 150 = 0 := by
  have h := (onPadData_touch_semantics
    ⟨1, ⟨0, 0, 0⟩, ⟨0, 0, 0⟩, ⟨250, 0, 1⟩⟩
    ⟨⟨(⟨0, 0, 0⟩, ⟨0, 0, 0⟩), (0, 0, false), some ⟨100, 200, 50, 150⟩⟩, 0⟩
    (by decide)).2.1 ⟨100, 200, 50, 150⟩ rfl (by decide)
  refine ⟨h.1, h.2, ?_, ?_⟩
  · norm_num [normCoord, clampU16, spanOf]
  · norm_num [normCoord, clampU16, spanOf]

/-- Helper: with an active touch and a nondegenerate calibration both stored
coordinates of `touchTransform` lie in `[0, 1]` (the inactive branches
store zeros, also in range). -/
theorem touchTransform_mem_unit (c : TouchCalibration) (t : TouchPad)
    (hx : c.min_x < c.max_x) (hy : c.min_y < c.max_y) :
    0 ≤ (touchTransform (some c) t).1 ∧ (touchTransform (some c) t).1 ≤ 1 ∧
    0 ≤ (touchTransform (some c) t).2.1 ∧ (touchTransform (some c) t).2.1 ≤ 1 := by
  unfold touchTransform
  by_cases ha : t.is_active = 0
  · simp [ha]
  · obtain ⟨h1, h2⟩ := normCoord_mem_unit t.x c.min_x c.max_x hx
    obtain ⟨h3, h4⟩ := normCoord_mem_unit t.y c.min_y c.max_y hy
    simp only [ha, ne_eq, not_false_eq_true, bne_iff_ne, if_true]
    simpa [ha] using ⟨h1, h2, h3, h4⟩

/-- Claim C8 (amended): for every accepted PadData packet and every supplied
nondegenerate calibration (`min_x < max_x`, `min_y < max_y`) the stored
touch coordinates lie in `[0, 1]` and both normalization divisors are
nonzero. -/
theorem onPadData_touch_range (d : PadData) (st : ClientState) (c : TouchCalibration)
    (hcal : st.status.touch_calibration = some c)
    (hx : c.min_x < c.max_x) (hy : c.min_y < c.max_y)
    (hfresh : st.packet_sequence < d.packet_counter) :
    spanOf c.min_x c.max_x ≠ 0 ∧ spanOf c.min_y c.max_y ≠ 0 ∧
    0 ≤ ((OnPadData d st).1.status.touch_status).1 ∧
    ((OnPadData d st).1.status.touch_status).1 ≤ 1 ∧
    0 ≤ ((OnPadData d st).1.status.touch_status).2.1 ∧
    ((OnPadData d st).1.status.touch_status).2.1 ≤ 1 := by
  have hts : (OnPadData d st).1.status.touch_status = touchTransform (some c) d.touch_1 := by
    rw [onPadData_accepted d st hfresh, hcal]
  obtain ⟨h1, h2, h3, h4⟩ := touchTransform_mem_unit c d.touch_1 hx hy
  refine ⟨?_, ?_, ?_, ?_, ?_, ?_⟩
  · unfold spanOf
    omega
  · unfold spanOf
    omega
  · rw [hts]; exact h1
  · rw [hts]; exact h2
  · rw [hts]; exact h3
  · rw [hts]; exact h4

/-- Witness for C8 (amended): the calibration `{100, 200, 50, 150}` with the
active raw touch `(250, 0)` keeps the stored `x` coordinate at most 1. -/
theorem onPadData_touch_range_witness :
    ((OnPadData ⟨1, ⟨0, 0, 0⟩, ⟨0, 0, 0⟩, ⟨250, 0, 1⟩⟩
        ⟨⟨(⟨0, 0, 0⟩, ⟨0, 0, 0⟩), (0, 0, false), some ⟨100, 200, 50, 150⟩⟩,
         0⟩).1.status.touch_status).1 ≤ 1 :=
  (onPadData_touch_range _ _ ⟨100, 200, 50, 150⟩ rfl (by decide) (by decide)
    (by decide)).2.2.2.1

/-- Counterexample to C8 as stated: with the degenerate (but accepted by the
code without any guard) calibration `{min_x = 7, max_x = 7, min_y = 0,
max_y = 100}` and an active touch, `Client::OnPadData` takes the division
branch (`touchDivisionPerformed` holds, and the accepted packet carries
the calibration) while the `x` divisor `max_x - min_x` is zero. -/
theorem touch_divisor_zero_at_degenerate_calib :
    touchDivisionPerformed (some ⟨7, 7, 0, 100⟩) ⟨50, 20, 1⟩ ∧
    spanOf (7 : ℕ) (7 : ℕ) = 0 ∧
    (OnPadData ⟨1, ⟨0, 0, 0⟩, ⟨0, 0, 0⟩, ⟨50, 20, 1⟩⟩
        ⟨⟨(⟨0, 0, 0⟩, ⟨0, 0, 0⟩), (0, 0, false), some ⟨7, 7, 0, 100⟩⟩,
         0⟩).1.status.touch_calibration = some ⟨7, 7, 0, 100⟩ ∧
    (((OnPadData ⟨1, ⟨0, 0, 0⟩, ⟨0, 0, 0⟩, ⟨50, 20, 1⟩⟩
        ⟨⟨(⟨0, 0, 0⟩, ⟨0, 0, 0⟩), (0, 0, false), some ⟨7, 7, 0, 100⟩⟩,
         0⟩).1.status.touch_status).2.2 = true) := by
  refine ⟨⟨by decide, rfl⟩, by decide, by decide, by decide⟩

/-- Claim C5: a datagram that fails header validation or carries an
unrecognized type tag (the validator yields `none`) invokes no callback
and leaves the shared state unchanged, and the receive handler re-arms the
next asynchronous read regardless of the validation outcome. -/
theorem receive_validation_robustness (validate : List ℕ → Option DecodedResponse)
    (buf : List ℕ) (st : ClientState) :
    (validate buf = none → clientReceiveStep validate buf st = (st, [], true)) ∧
    (clientReceiveStep validate buf st).2.2 = true := by
  constructor
  · intro h
    unfold clientReceiveStep
    rw [h]
  · unfold clientReceiveStep
    rcases validate buf with _ | r
    · rfl
    · cases r <;> rfl

/-- Witness for C5: a validator that rejects every datagram leaves a concrete
state untouched, fires no callback and re-arms the read. -/
theorem receive_validation_robustness_witness :
    clientReceiveStep (fun _ => none) []
        ⟨⟨(⟨0, 0, 0⟩, ⟨0, 0, 0⟩), (0, 0, false), none⟩, 0⟩ =
      (⟨⟨(⟨0, 0, 0⟩, ⟨0, 0, 0⟩), (0, 0, false), none⟩, 0⟩, [], true) :=
  (receive_validation_robustness (fun _ => none) []
    ⟨⟨(⟨0, 0, 0⟩, ⟨0, 0, 0⟩), (0, 0, false), none⟩, 0⟩).1 rfl

/-- Claim C4 (the code contradicts it): `Socket::HandleSend` calls the
throwing overload of `send_to` and catches nothing, so a failing first
send aborts the heartbeat tick with an uncaught error — before the second
send and before the timer re-arm — rather than being absorbed as a logged
non-fatal event.  Evaluated here at a failing send. -/
theorem handleSend_fault_uncaught :
    HandleSend 7 (fun _ => Except.error (SendError.fault 101)) 0 =
      Except.error (SendError.fault 101) := rfl

/-- Claim C6: the heartbeat is drift-free — `StartSend` arms the timer
exactly 3 s after the supplied from-time; a successful `HandleSend`
re-arms at the prior expiry plus 3 s (it takes no notion of the current
time at all); hence, anchored at construction time `t0`, deadline `n` is
`t0 + 3 * (n + 1)`, independent of how long each send took. -/
theorem heartbeat_drift_free (t0 : ℤ) (n : ℕ) (cid : ℕ)
    (send : SentMessage → Except SendError ℕ) (e : ℤ) (r1 r2 : ℕ)
    (h1 : send (portInfoMessage cid) = Except.ok r1)
    (h2 : send (padDataMessage cid) = Except.ok r2) :
    startSendExpiry t0 = t0 + 3 ∧
    heartbeatExpiry t0 n = t0 + 3 * ((n : ℤ) + 1) ∧
    HandleSend cid send e =
      Except.ok ([portInfoMessage cid, padDataMessage cid], e + 3) := by
  refine ⟨rfl, ?_, ?_⟩
  · induction n with
    | zero => simp [heartbeatExpiry, startSendExpiry]
    | succ k ih =>
        rw [heartbeatExpiry, ih]
        unfold startSendExpiry
        push_cast
        ring
  · unfold HandleSend startSendExpiry
    rw [h1, h2]
    rfl

/-- Witness for C6: with an always-successful send, the third deadline after
construction time 0 is at 9 s, and a tick re-arms from prior expiry 10 to
13. -/
theorem heartbeat_drift_free_witness :
    heartbeatExpiry 0 2 = 0 + 3 * (((2 : ℕ) : ℤ) + 1) ∧
    HandleSend 1 (fun _ => Except.ok 0) 10 =
      Except.ok ([portInfoMessage 1, padDataMessage 1], 10 + 3) :=
  ⟨(heartbeat_drift_free 0 2 1 (fun _ => Except.ok 0) 10 0 0 rfl rfl).2.1,
   (heartbeat_drift_free 0 2 1 (fun _ => Except.ok 0) 10 0 0 rfl rfl).2.2⟩

/-- Claim C7: on a heartbeat expiry (with the sends succeeding) exactly two
fixed requests go to the peer: the port-info query `{1, {0,0,0,0}}` for
the first pad slot, and the pad-data subscription with by-id addressing of
the first pad slot and the all-zero MAC placeholder; both are framed by
`Request::Create` with the construction-time client identifier. -/
theorem handleSend_fixed_requests (cid : ℕ)
    (send : SentMessage → Except SendError ℕ) (e : ℤ) (r1 r2 : ℕ)
    (h1 : send (portInfoMessage cid) = Except.ok r1)
    (h2 : send (padDataMessage cid) = Except.ok r2) :
    HandleSend cid send e =
      Except.ok ([portInfoMessage cid, padDataMessage cid], startSendExpiry e) ∧
    portInfoMessage cid = SentMessage.portInfo ⟨⟨1, [0, 0, 0, 0]⟩, cid⟩ ∧
    padDataMessage cid =
      SentMessage.padData ⟨⟨RegisterFlags.id, 0, [0, 0, 0, 0, 0, 0]⟩, cid⟩ := by
  refine ⟨?_, rfl, rfl⟩
  unfold HandleSend
  rw [h1, h2]
  rfl

/-- Witness for C7: with client id 5 and an always-successful send, one tick
sends exactly the two fixed requests and re-arms. -/
theorem handleSend_fixed_requests_witness :
    HandleSend 5 (fun _ => Except.ok 16) 0 =
      Except.ok ([portInfoMessage 5, padDataMessage 5], startSendExpiry 0) :=
  (handleSend_fixed_requests 5 (fun _ => Except.ok 16) 0 16 16 rfl rfl).1

end CemuhookUDP
